import Mathlib

/-!
Verification of the `masonry-rs` excerpt: the `SizedBox` container widget
(`src/widget/sized_box.rs`) and the `FontDescriptor` value type
(`src/text/font_descriptor.rs`).

Modelling conventions:
* `f64` is modelled by `F`: a rational number, positive infinity or negative
  infinity.  IEEE NaN and the operations that would produce it are outside
  the model; where an IEEE operation would produce NaN the model picks a
  documented conventional value.  (`f64::INFINITY` is `F.pinf`.)
* Context objects (`EventCtx`, `LayoutCtx`, `PaintCtx`, the mutation ctx)
  are modelled by traces: each widget method returns, next to its value,
  the ordered list of context operations it performed.
* Types of the repository that are not part of the excerpt
  (`BoxConstraints`, `Size`, `Point`, `KeyOrValue`, `Env`) are modelled as
  plain records, see their doc comments.
* The child widget behind `WidgetPod<Box<dyn Widget>>` is abstracted to a
  `ChildWidget`: its layout behaviour is an arbitrary function of the
  incoming constraints and environment; its other behaviour is opaque.
-/

namespace Masonry

/-- Model of `f64` without NaN: a finite rational, `+inf` or `-inf`. -/
inductive F where
  | ninf : F
  | fin : ℚ → F
  | pinf : F
deriving DecidableEq, Repr

namespace F

/-- `f64::INFINITY`. -/
def INFINITY : F := F.pinf

/-- Order on non-NaN `f64` values. -/
def ble : F → F → Bool
  | .ninf, _ => true
  | _, .ninf => false
  | _, .pinf => true
  | .pinf, _ => false
  | .fin q, .fin r => q ≤ r

/-- `f64::max` (NaN cases out of model). -/
def fmax (a b : F) : F := if a.ble b then b else a

/-- `f64::min` (NaN cases out of model). -/
def fmin (a b : F) : F := if a.ble b then a else b

/-- `f64` addition; the NaN case `+inf + -inf` is conventionally `+inf`. -/
def add : F → F → F
  | .fin q, .fin r => .fin (q + r)
  | .pinf, _ => .pinf
  | _, .pinf => .pinf
  | .ninf, _ => .ninf
  | _, .ninf => .ninf

instance : Add F := ⟨F.add⟩

/-- `f64` multiplication; NaN cases (`0 * inf`) conventionally keep the
infinite operand's sign. -/
def mul : F → F → F
  | .fin q, .fin r => .fin (q * r)
  | .pinf, .pinf => .pinf
  | .pinf, .ninf => .ninf
  | .ninf, .pinf => .ninf
  | .ninf, .ninf => .pinf
  | .pinf, .fin q => if q < 0 then .ninf else .pinf
  | .fin q, .pinf => if q < 0 then .ninf else .pinf
  | .ninf, .fin q => if q < 0 then .pinf else .ninf
  | .fin q, .ninf => if q < 0 then .pinf else .ninf

instance : Mul F := ⟨F.mul⟩

/-- `f64` subtraction, via addition of the negation; `inf - inf` is
conventionally `+inf`. -/
def neg : F → F
  | .fin q => .fin (-q)
  | .pinf => .ninf
  | .ninf => .pinf

def sub (a b : F) : F := a.add b.neg

instance : Sub F := ⟨F.sub⟩

/-- Division by a finite nonzero `f64`; the remaining cases are given
conventional values (they would be NaN or are unused). -/
def div : F → F → F
  | .fin q, .fin r => .fin (q / r)
  | .pinf, .fin r => if r < 0 then .ninf else .pinf
  | .ninf, .fin r => if r < 0 then .pinf else .ninf
  | _, .pinf => .fin 0
  | _, .ninf => .fin 0

instance : Div F := ⟨F.div⟩

end F

/-- Model of `kurbo::Size`. `Size` is not part of the excerpt; modelled as
a width/height pair. -/
structure Size where
  width : F
  height : F
deriving DecidableEq, Repr

/-- `Size::new`. -/
def Size.new (w h : F) : Size := ⟨w, h⟩

/-- Model of `kurbo::Point`. Not part of the excerpt; modelled as an x/y
pair. -/
structure Point where
  x : F
  y : F
deriving DecidableEq, Repr

/-- `Point::new`. -/
def Point.new (x y : F) : Point := ⟨x, y⟩

/-- Modelled from the spec: `BoxConstraints` is not under `src/`; the spec
describes a "constraint-based layout protocol" in which a parent passes
minimum and maximum sizes to a child.  Modelled as the pair of those
bounds, with `new` storing the given bounds directly. -/
structure BoxConstraints where
  minSize : Size
  maxSize : Size
deriving DecidableEq, Repr

namespace BoxConstraints

/-- `BoxConstraints::new`.  Modelled from the spec: stores the bounds. -/
def new (min max : Size) : BoxConstraints := ⟨min, max⟩

/-- `BoxConstraints::min`. -/
def min (bc : BoxConstraints) : Size := bc.minSize

/-- `BoxConstraints::max`. -/
def max (bc : BoxConstraints) : Size := bc.maxSize

/-- Modelled from the spec: `BoxConstraints::shrink` is not under `src/`;
modelled as subtracting the given amounts from both bounds, clamped at
zero. -/
def shrink (bc : BoxConstraints) (diff : F × F) : BoxConstraints :=
  BoxConstraints.new
    (Size.new ((bc.min.width - diff.1).fmax (F.fin 0)) ((bc.min.height - diff.2).fmax (F.fin 0)))
    (Size.new ((bc.max.width - diff.1).fmax (F.fin 0)) ((bc.max.height - diff.2).fmax (F.fin 0)))

/-- Modelled from the spec: `BoxConstraints::constrain` is not under
`src/`; modelled as clamping each dimension of the given size into the
constraint's range. -/
def constrain (bc : BoxConstraints) (size : F × F) : Size :=
  Size.new ((size.1.fmax bc.min.width).fmin bc.max.width)
    ((size.2.fmax bc.min.height).fmin bc.max.height)

end BoxConstraints

/-- Model of `piet::Color`: opaque, identified by a tag. -/
def Color := ℕ
deriving instance DecidableEq, Repr for Color

/-- Model of `kurbo::RoundedRectRadii`: the four corner radii. -/
structure RoundedRectRadii where
  top_left : F
  top_right : F
  bottom_right : F
  bottom_left : F
deriving DecidableEq, Repr

/-- `RoundedRectRadii::from_single_radius`. -/
def RoundedRectRadii.from_single_radius (r : F) : RoundedRectRadii := ⟨r, r, r, r⟩

/-- Modelled from the spec: the `Env` (not under `src/`) resolves keys to
values; modelled as one lookup table per value type used here. -/
structure Env where
  floatOf : ℕ → F
  colorOf : ℕ → Color
  radiiOf : ℕ → RoundedRectRadii

/-- Model of `KeyOrValue<T>`: either a concrete value or a key into the
`Env`. -/
inductive KeyOrValue (α : Type) where
  | value : α → KeyOrValue α
  | key : ℕ → KeyOrValue α
deriving DecidableEq, Repr

/-- `KeyOrValue::<f64>::resolve`. -/
def KeyOrValue.resolveF : KeyOrValue F → Env → F
  | .value v, _ => v
  | .key k, env => env.floatOf k

/-- `KeyOrValue::<Color>::resolve`. -/
def KeyOrValue.resolveColor : KeyOrValue Color → Env → Color
  | .value v, _ => v
  | .key k, env => env.colorOf k

/-- `KeyOrValue::<RoundedRectRadii>::resolve`. -/
def KeyOrValue.resolveRadii : KeyOrValue RoundedRectRadii → Env → RoundedRectRadii
  | .value v, _ => v
  | .key k, env => env.radiiOf k

/-- Model of the gradient types of `piet` (`LinearGradient` and friends):
opaque, identified by a tag. -/
def Gradient := ℕ
deriving instance DecidableEq, Repr for Gradient

/-- `BackgroundBrush` from `sized_box.rs`.  The `PainterFn` closure is
opaque; it is identified by a tag. -/
inductive BackgroundBrush where
  | Color : KeyOrValue Color → BackgroundBrush
  | Linear : Gradient → BackgroundBrush
  | Radial : Gradient → BackgroundBrush
  | Fixed : Gradient → BackgroundBrush
  | PainterFn : ℕ → BackgroundBrush

/-- `BorderStyle` from `sized_box.rs`. -/
structure BorderStyle where
  width : KeyOrValue F
  color : KeyOrValue Color

/-- Abstraction of the child widget behind `WidgetPod<Box<dyn Widget>>`:
an optional explicit id (set by `WidgetPod::new_with_id`) and the child's
layout behaviour as a function of constraints and environment.  Its event,
lifecycle and paint behaviour is opaque and appears in traces as single
delegation steps. -/
structure ChildWidget where
  id : Option ℕ
  layoutFn : BoxConstraints → Env → Size

/-- `WidgetPod::new` followed by `.boxed()`: wraps a widget with no
explicit id. -/
def WidgetPod.new (layoutFn : BoxConstraints → Env → Size) : ChildWidget :=
  ⟨none, layoutFn⟩

/-- `WidgetPod::new_with_id` followed by `.boxed()`. -/
def WidgetPod.new_with_id (layoutFn : BoxConstraints → Env → Size) (id : ℕ) :
    ChildWidget :=
  ⟨some id, layoutFn⟩

/-- `SizedBox` from `sized_box.rs`. -/
structure SizedBox where
  child : Option ChildWidget
  width : Option F
  height : Option F
  background : Option BackgroundBrush
  border : Option BorderStyle
  corner_radius : KeyOrValue RoundedRectRadii

namespace SizedBox

/-- `SizedBox::new`.  The bare `impl Widget` argument is modelled by its
layout behaviour. -/
def new (child : BoxConstraints → Env → Size) : SizedBox :=
  { child := some (WidgetPod.new child)
    width := none
    height := none
    background := none
    border := none
    corner_radius := .value (RoundedRectRadii.from_single_radius (F.fin 0)) }

/-- `SizedBox::new_with_id`.  The bare `impl Widget` argument is modelled
by its layout behaviour. -/
def new_with_id (child : BoxConstraints → Env → Size) (id : ℕ) : SizedBox :=
  { child := some (WidgetPod.new_with_id child id)
    width := none
    height := none
    background := none
    border := none
    corner_radius := .value (RoundedRectRadii.from_single_radius (F.fin 0)) }

/-- `SizedBox::empty`. -/
def empty : SizedBox :=
  { child := none
    width := none
    height := none
    background := none
    border := none
    corner_radius := .value (RoundedRectRadii.from_single_radius (F.fin 0)) }

/-- `SizedBox::width` (builder; renamed to avoid the field projection). -/
def with_width (s : SizedBox) (width : F) : SizedBox :=
  { s with width := some width }

/-- `SizedBox::height` (builder; renamed to avoid the field projection). -/
def with_height (s : SizedBox) (height : F) : SizedBox :=
  { s with height := some height }

/-- `SizedBox::expand`. -/
def expand (s : SizedBox) : SizedBox :=
  { s with width := some F.INFINITY, height := some F.INFINITY }

/-- `SizedBox::expand_width`. -/
def expand_width (s : SizedBox) : SizedBox :=
  { s with width := some F.INFINITY }

/-- `SizedBox::expand_height`. -/
def expand_height (s : SizedBox) : SizedBox :=
  { s with height := some F.INFINITY }

/-- `SizedBox::background` (builder; renamed to avoid the field
projection). -/
def with_background (s : SizedBox) (brush : BackgroundBrush) : SizedBox :=
  { s with background := some brush }

/-- `SizedBox::border` (builder; renamed to avoid the field projection). -/
def with_border (s : SizedBox) (color : KeyOrValue Color)
    (width : KeyOrValue F) : SizedBox :=
  { s with border := some { color := color, width := width } }

/-- `SizedBox::rounded`. -/
def rounded (s : SizedBox) (radius : KeyOrValue RoundedRectRadii) : SizedBox :=
  { s with corner_radius := radius }

/-- `SizedBox::child_constraints`. -/
def child_constraints (s : SizedBox) (bc : BoxConstraints) : BoxConstraints :=
  let wpair : F × F := match s.width with
    | some width =>
      let w := (width.fmax bc.min.width).fmin bc.max.width
      (w, w)
    | none => (bc.min.width, bc.max.width)
  let hpair : F × F := match s.height with
    | some height =>
      let h := (height.fmax bc.min.height).fmin bc.max.height
      (h, h)
    | none => (bc.min.height, bc.max.height)
  BoxConstraints.new (Size.new wpair.1 hpair.1) (Size.new wpair.2 hpair.2)

/-- `SizedBox::width_and_height`. -/
def width_and_height (s : SizedBox) : Option F × Option F :=
  (s.width, s.height)

end SizedBox

/-- Trace of operations a widget method performs on its context
(`EventCtx` / `LifeCycleCtx` / `LayoutCtx` / the mutation ctx).  Events and
lifecycle events are opaque, identified by tags. -/
inductive CtxOp where
  | childOnEvent : ℕ → CtxOp
  | childLifecycle : ℕ → CtxOp
  | childLayout : BoxConstraints → CtxOp
  | placeChild : Point → CtxOp
  | childrenChanged : CtxOp
  | requestLayout : CtxOp
  | requestPaint : CtxOp
deriving DecidableEq, Repr

/-- Shapes built by `paint` from the widget's size (the geometry functions
`to_rect`, `to_rounded_rect` and `inset` live in `kurbo`, outside this
repository, so they are constructors here; `insetRoundedRect` records the
inset amount passed to `Rect::inset`). -/
inductive Shape where
  | rect : Size → Shape
  | roundedRect : Size → RoundedRectRadii → Shape
  | insetRoundedRect : Size → F → RoundedRectRadii → Shape
deriving DecidableEq, Repr

/-- Brushes passed to `PaintCtx::fill`. -/
inductive Brush where
  | color : Color → Brush
  | linear : Gradient → Brush
  | radial : Gradient → Brush
  | fixed : Gradient → Brush
deriving DecidableEq, Repr

/-- Trace of operations performed on a `PaintCtx`.  `with_save` appears as
a `save` / `restore` pair around the enclosed operations. -/
inductive PaintOp where
  | save : PaintOp
  | restore : PaintOp
  | clip : Shape → PaintOp
  | fill : Shape → Brush → PaintOp
  | stroke : Shape → Color → F → PaintOp
  | painterFn : ℕ → PaintOp
  | paintChild : PaintOp
deriving DecidableEq, Repr

/-- `BackgroundBrush::paint`.  `ctxSize` is `ctx.size()`. -/
def BackgroundBrush.paint (b : BackgroundBrush) (ctxSize : Size) (env : Env) :
    List PaintOp :=
  let bounds := Shape.rect ctxSize
  match b with
  | .Color color => [.fill bounds (.color (color.resolveColor env))]
  | .Linear grad => [.fill bounds (.linear grad)]
  | .Radial grad => [.fill bounds (.radial grad)]
  | .Fixed grad => [.fill bounds (.fixed grad)]
  | .PainterFn painter => [.painterFn painter]

namespace SizedBox

/-- `impl Widget for SizedBox`: `on_event`. -/
def on_event (s : SizedBox) (event : ℕ) : List CtxOp :=
  match s.child with
  | some _ => [.childOnEvent event]
  | none => []

/-- `impl Widget for SizedBox`: `on_status_change` (empty body). -/
def on_status_change (_s : SizedBox) (_event : ℕ) : List CtxOp := []

/-- `impl Widget for SizedBox`: `lifecycle`. -/
def lifecycle (s : SizedBox) (event : ℕ) : List CtxOp :=
  match s.child with
  | some _ => [.childLifecycle event]
  | none => []

/-- `impl Widget for SizedBox`: `layout`.  Returns the computed size and
the trace of `LayoutCtx` operations (the child's layout call, with the
constraints passed to it, and `place_child`). -/
def layout (s : SizedBox) (bc : BoxConstraints) (env : Env) :
    Size × List CtxOp :=
  let border_width : F := match s.border with
    | some border => border.width.resolveF env
    | none => F.fin 0
  let child_bc := s.child_constraints bc
  let child_bc := child_bc.shrink (F.fin 2 * border_width, F.fin 2 * border_width)
  let origin := Point.new border_width border_width
  match s.child with
  | some child =>
    let size := child.layoutFn child_bc env
    (Size.new (size.width + F.fin 2 * border_width) (size.height + F.fin 2 * border_width),
      [.childLayout child_bc, .placeChild origin])
  | none =>
    (bc.constrain (s.width.getD (F.fin 0), s.height.getD (F.fin 0)), [])

/-- `impl Widget for SizedBox`: `paint`.  `ctxSize` is `ctx.size()`. -/
def paint (s : SizedBox) (ctxSize : Size) (env : Env) : List PaintOp :=
  let corner_radius := s.corner_radius.resolveRadii env
  (match s.background with
   | some background =>
     let panel := Shape.roundedRect ctxSize corner_radius
     [PaintOp.save, PaintOp.clip panel] ++ background.paint ctxSize env ++
       [PaintOp.restore]
   | none => []) ++
  (match s.border with
   | some border =>
     let border_width := border.width.resolveF env
     [PaintOp.stroke
       (Shape.insetRoundedRect ctxSize (border_width / F.fin (-2)) corner_radius)
       (border.color.resolveColor env) border_width]
   | none => []) ++
  (match s.child with
   | some _ => [PaintOp.paintChild]
   | none => [])

/-- `impl Widget for SizedBox`: `children`. -/
def children (s : SizedBox) : List ChildWidget :=
  match s.child with
  | some child => [child]
  | none => []

end SizedBox

/- `SizedBoxMut` mutation methods: each takes the current widget state and
returns the new state together with the trace of ctx invalidation calls. -/
namespace SizedBoxMut

/-- `SizedBoxMut::set_child`. -/
def set_child (s : SizedBox) (child : BoxConstraints → Env → Size) :
    SizedBox × List CtxOp :=
  ({ s with child := some (WidgetPod.new child) },
    [.childrenChanged, .requestLayout])

/-- `SizedBoxMut::remove_child`. -/
def remove_child (s : SizedBox) : SizedBox × List CtxOp :=
  ({ s with child := none }, [.childrenChanged, .requestLayout])

/-- `SizedBoxMut::set_width`. -/
def set_width (s : SizedBox) (width : F) : SizedBox × List CtxOp :=
  ({ s with width := some width }, [.requestLayout])

/-- `SizedBoxMut::set_height`. -/
def set_height (s : SizedBox) (height : F) : SizedBox × List CtxOp :=
  ({ s with height := some height }, [.requestLayout])

/-- `SizedBoxMut::unset_width`. -/
def unset_width (s : SizedBox) : SizedBox × List CtxOp :=
  ({ s with width := none }, [.requestLayout])

/-- `SizedBoxMut::unset_height`. -/
def unset_height (s : SizedBox) : SizedBox × List CtxOp :=
  ({ s with height := none }, [.requestLayout])

/-- `SizedBoxMut::set_background`. -/
def set_background (s : SizedBox) (brush : BackgroundBrush) :
    SizedBox × List CtxOp :=
  ({ s with background := some brush }, [.requestPaint])

/-- `SizedBoxMut::clear_background`. -/
def clear_background (s : SizedBox) : SizedBox × List CtxOp :=
  ({ s with background := none }, [.requestPaint])

/-- `SizedBoxMut::set_border`. -/
def set_border (s : SizedBox) (color : KeyOrValue Color)
    (width : KeyOrValue F) : SizedBox × List CtxOp :=
  ({ s with border := some { color := color, width := width } },
    [.requestLayout])

/-- `SizedBoxMut::clear_border`. -/
def clear_border (s : SizedBox) : SizedBox × List CtxOp :=
  ({ s with border := none }, [.requestLayout])

/-- `SizedBoxMut::set_rounded`. -/
def set_rounded (s : SizedBox) (radius : KeyOrValue RoundedRectRadii) :
    SizedBox × List CtxOp :=
  ({ s with corner_radius := radius }, [.requestPaint])

end SizedBoxMut

/-- Model of `piet::FontFamily`: opaque, identified by a tag. -/
def FontFamily := ℕ
deriving instance DecidableEq, Repr, Inhabited for FontFamily

/-- Model of `piet::FontWeight` (a `u16` wrapper). -/
def FontWeight := ℕ
deriving instance DecidableEq, Repr for FontWeight

/-- `FontWeight::REGULAR`. -/
def FontWeight.REGULAR : FontWeight := (400 : ℕ)

instance : Inhabited FontWeight := ⟨FontWeight.REGULAR⟩

/-- Model of `piet::FontStyle`. -/
inductive FontStyle where
  | Regular : FontStyle
  | Italic : FontStyle
deriving DecidableEq, Repr

instance : Inhabited FontStyle := ⟨FontStyle.Regular⟩

/-- `piet::util::DEFAULT_FONT_SIZE` (external constant; its value does not
matter for the claims). -/
def DEFAULT_FONT_SIZE : F := F.fin 12

/-- `FontDescriptor` from `font_descriptor.rs`. -/
structure FontDescriptor where
  family : FontFamily
  size : F
  weight : FontWeight
  style : FontStyle
deriving DecidableEq, Repr

namespace FontDescriptor

/-- `FontDescriptor::new`. -/
def new (family : FontFamily) : FontDescriptor :=
  { family := family
    size := DEFAULT_FONT_SIZE
    weight := FontWeight.REGULAR
    style := FontStyle.Regular }

/-- `FontDescriptor::with_size`. -/
def with_size (d : FontDescriptor) (size : F) : FontDescriptor :=
  { d with size := size }

/-- `FontDescriptor::with_weight`. -/
def with_weight (d : FontDescriptor) (weight : FontWeight) : FontDescriptor :=
  { d with weight := weight }

/-- `FontDescriptor::with_style`. -/
def with_style (d : FontDescriptor) (style : FontStyle) : FontDescriptor :=
  { d with style := style }

/-- `impl Default for FontDescriptor`. -/
def default : FontDescriptor :=
  { family := (Inhabited.default : FontFamily)
    weight := (Inhabited.default : FontWeight)
    style := (Inhabited.default : FontStyle)
    size := DEFAULT_FONT_SIZE }

/-- `impl Data for FontDescriptor`: `same`.  Field comparisons use Rust
`==`; on the NaN-free model of `f64` this is decidable equality. -/
def same (a b : FontDescriptor) : Bool :=
  decide (a.family = b.family) && decide (a.size = b.size) &&
    decide (a.weight = b.weight) && decide (a.style = b.style)

/-- The `#[derive(PartialEq)]` equality on `FontDescriptor`: field-wise
Rust `==`. -/
def eqDerived (a b : FontDescriptor) : Bool :=
  decide (a.family = b.family) && decide (a.size = b.size) &&
    decide (a.weight = b.weight) && decide (a.style = b.style)

end FontDescriptor

/-! Theorems. -/

theorem F.add_def (a b : F) : a + b = F.add a b := rfl

theorem F.mul_def (a b : F) : a * b = F.mul a b := rfl

theorem F.sub_def (a b : F) : a - b = F.sub a b := rfl

theorem F.div_def (a b : F) : a / b = F.div a b := rfl

/-- C1: for every `SizedBox` and parent constraints `bc`,
`child_constraints` constrains the child per axis: if `width` is set to
`w`, the child's min and max width both equal `w` clamped into the
parent's range, `w.max(bc.min().width).min(bc.max().width)`; if `width`
is not set, the child's min and max width are `bc.min().width` and
`bc.max().width` unchanged; symmetrically for `height`. -/
theorem sizedbox_child_constraints_spec (s : SizedBox) (bc : BoxConstraints) :
    (((s.child_constraints bc).min.width, (s.child_constraints bc).max.width) =
      match s.width with
      | some w =>
        ((w.fmax bc.min.width).fmin bc.max.width,
          (w.fmax bc.min.width).fmin bc.max.width)
      | none => (bc.min.width, bc.max.width)) ∧
    (((s.child_constraints bc).min.height, (s.child_constraints bc).max.height) =
      match s.height with
      | some h =>
        ((h.fmax bc.min.height).fmin bc.max.height,
          (h.fmax bc.min.height).fmin bc.max.height)
      | none => (bc.min.height, bc.max.height)) := by
  rcases s with ⟨child, w, h, bg, bd, cr⟩
  cases w <;> cases h <;> exact ⟨rfl, rfl⟩

/-- C2: for every `SizedBox` with a child, `layout` resolves the border
width `b` (`0.0` when no border is set), lays the child out under
`child_constraints(bc)` shrunk by `(2*b, 2*b)`, places the child at
origin `(b, b)`, and returns the child's reported size grown by `2*b` in
both width and height. -/
theorem sizedbox_layout_with_child (s : SizedBox) (c : ChildWidget)
    (bc : BoxConstraints) (env : Env) (b : F)
    (hchild : s.child = some c)
    (hb : b = match s.border with
      | some border => border.width.resolveF env
      | none => F.fin 0) :
    s.layout bc env =
      (Size.new
        ((c.layoutFn ((s.child_constraints bc).shrink (F.fin 2 * b, F.fin 2 * b)) env).width
          + F.fin 2 * b)
        ((c.layoutFn ((s.child_constraints bc).shrink (F.fin 2 * b, F.fin 2 * b)) env).height
          + F.fin 2 * b),
        [CtxOp.childLayout ((s.child_constraints bc).shrink (F.fin 2 * b, F.fin 2 * b)),
          CtxOp.placeChild (Point.new b b)]) := by
  subst hb
  rcases s with ⟨child, w, h, bg, bd, cr⟩
  simp only [SizedBox.child] at hchild
  subst hchild
  rfl

/-- Witness for C2 at a concrete widget, child, constraints and env. -/
theorem sizedbox_layout_with_child_witness :
    (SizedBox.new (fun _ _ => Size.new (F.fin 5) (F.fin 7))).child =
        some (WidgetPod.new (fun _ _ => Size.new (F.fin 5) (F.fin 7))) ∧
    (SizedBox.new (fun _ _ => Size.new (F.fin 5) (F.fin 7))).layout
        (BoxConstraints.new (Size.new (F.fin 0) (F.fin 0))
          (Size.new (F.fin 100) (F.fin 100)))
        ⟨fun _ => F.fin 0, fun _ => (0 : ℕ), fun _ => RoundedRectRadii.from_single_radius (F.fin 0)⟩ =
      (Size.new (F.fin 5) (F.fin 7),
        [CtxOp.childLayout (BoxConstraints.new (Size.new (F.fin 0) (F.fin 0))
            (Size.new (F.fin 100) (F.fin 100))),
          CtxOp.placeChild (Point.new (F.fin 0) (F.fin 0))]) := by
  constructor
  · rfl
  · have h := sizedbox_layout_with_child
      (SizedBox.new (fun _ _ => Size.new (F.fin 5) (F.fin 7)))
      (WidgetPod.new (fun _ _ => Size.new (F.fin 5) (F.fin 7)))
      (BoxConstraints.new (Size.new (F.fin 0) (F.fin 0))
        (Size.new (F.fin 100) (F.fin 100)))
      ⟨fun _ => F.fin 0, fun _ => (0 : ℕ), fun _ => RoundedRectRadii.from_single_radius (F.fin 0)⟩
      (F.fin 0) rfl rfl
    rw [h]
    norm_num [SizedBox.new, WidgetPod.new, SizedBox.child_constraints,
      BoxConstraints.new, BoxConstraints.min, BoxConstraints.max,
      BoxConstraints.shrink, Size.new, Point.new, F.mul_def, F.add_def,
      F.sub_def, F.mul, F.add, F.sub, F.neg, F.fmax, F.fmin, F.ble]

/-- C3: for every `SizedBox` without a child, `layout` returns
`bc.constrain((width, height))` with an unset `width` or `height` treated
as `0.0`, performs no layout-context operations, and the background,
border and corner radius have no effect on the returned size. -/
theorem sizedbox_layout_no_child (s : SizedBox) (bc : BoxConstraints)
    (env : Env) (hchild : s.child = none) :
    s.layout bc env =
      (bc.constrain (s.width.getD (F.fin 0), s.height.getD (F.fin 0)), []) ∧
    (∀ bg bd cr,
      (SizedBox.layout
          { s with background := bg, border := bd, corner_radius := cr }
          bc env).1 =
        (s.layout bc env).1) := by
  rcases s with ⟨child, w, h, bgf, bdf, crf⟩
  simp only [SizedBox.child] at hchild
  subst hchild
  exact ⟨rfl, fun bg bd cr => rfl⟩

/-- Witness for C3 at a concrete childless widget. -/
theorem sizedbox_layout_no_child_witness :
    (SizedBox.empty.with_width (F.fin 40)).child = none ∧
    (SizedBox.empty.with_width (F.fin 40)).layout
        (BoxConstraints.new (Size.new (F.fin 0) (F.fin 0))
          (Size.new (F.fin 30) (F.fin 30)))
        ⟨fun _ => F.fin 0, fun _ => (0 : ℕ), fun _ => RoundedRectRadii.from_single_radius (F.fin 0)⟩ =
      (Size.new (F.fin 30) (F.fin 0), []) := by
  constructor
  · rfl
  · have h := sizedbox_layout_no_child (SizedBox.empty.with_width (F.fin 40))
      (BoxConstraints.new (Size.new (F.fin 0) (F.fin 0))
        (Size.new (F.fin 30) (F.fin 30)))
      ⟨fun _ => F.fin 0, fun _ => (0 : ℕ), fun _ => RoundedRectRadii.from_single_radius (F.fin 0)⟩
      rfl
    rw [h.1]
    norm_num [SizedBox.empty, SizedBox.with_width, BoxConstraints.new,
      BoxConstraints.min, BoxConstraints.max, BoxConstraints.constrain,
      Size.new, F.fmax, F.fmin, F.ble]

/-- C4: `paint` composes its operations in this fixed order: when a
background is set, it fills the background clipped to the rounded
rectangle of the widget's size with the resolved corner radius, inside a
save/restore scope; then, when a border is set, it strokes the size
rectangle inset by minus half the resolved border width and rounded by
the corner radius, with the resolved border color and width; last, when
a child is present, it paints the child, unclipped (outside the
save/restore scope). -/
theorem sizedbox_paint_order (s : SizedBox) (ctxSize : Size) (env : Env) :
    s.paint ctxSize env =
      (match s.background with
       | some background =>
         [PaintOp.save,
           PaintOp.clip (Shape.roundedRect ctxSize (s.corner_radius.resolveRadii env))] ++
           background.paint ctxSize env ++ [PaintOp.restore]
       | none => []) ++
      (match s.border with
       | some border =>
         [PaintOp.stroke
           (Shape.insetRoundedRect ctxSize
             (border.width.resolveF env / F.fin (-2))
             (s.corner_radius.resolveRadii env))
           (border.color.resolveColor env) (border.width.resolveF env)]
       | none => []) ++
      (match s.child with
       | some _ => [PaintOp.paintChild]
       | none => []) := by
  rcases s with ⟨child, w, h, bg, bd, cr⟩
  rfl

/-- C5: `on_event` and `lifecycle` forward the event to the child exactly
when a child is present and do nothing otherwise; `on_status_change`
does nothing in all cases. -/
theorem sizedbox_event_forwarding (s : SizedBox) (ev lc sc : ℕ) :
    (s.on_event ev =
      match s.child with
      | some _ => [CtxOp.childOnEvent ev]
      | none => []) ∧
    (s.lifecycle lc =
      match s.child with
      | some _ => [CtxOp.childLifecycle lc]
      | none => []) ∧
    s.on_status_change sc = [] :=
  ⟨rfl, rfl, rfl⟩

/-- C6: every `SizedBoxMut` mutation records its invalidation flags:
`set_child` and `remove_child` call `children_changed` then
`request_layout`; `set_width`, `set_height`, `unset_width`,
`unset_height`, `set_border` and `clear_border` call `request_layout`;
`set_background`, `clear_background` and `set_rounded` call
`request_paint`. -/
theorem sizedboxmut_invalidation_flags (s : SizedBox)
    (cw : BoxConstraints → Env → Size) (w h : F) (brush : BackgroundBrush)
    (color : KeyOrValue Color) (bw : KeyOrValue F)
    (radius : KeyOrValue RoundedRectRadii) :
    (SizedBoxMut.set_child s cw).2 = [CtxOp.childrenChanged, CtxOp.requestLayout] ∧
    (SizedBoxMut.remove_child s).2 = [CtxOp.childrenChanged, CtxOp.requestLayout] ∧
    (SizedBoxMut.set_width s w).2 = [CtxOp.requestLayout] ∧
    (SizedBoxMut.set_height s h).2 = [CtxOp.requestLayout] ∧
    (SizedBoxMut.unset_width s).2 = [CtxOp.requestLayout] ∧
    (SizedBoxMut.unset_height s).2 = [CtxOp.requestLayout] ∧
    (SizedBoxMut.set_border s color bw).2 = [CtxOp.requestLayout] ∧
    (SizedBoxMut.clear_border s).2 = [CtxOp.requestLayout] ∧
    (SizedBoxMut.set_background s brush).2 = [CtxOp.requestPaint] ∧
    (SizedBoxMut.clear_background s).2 = [CtxOp.requestPaint] ∧
    (SizedBoxMut.set_rounded s radius).2 = [CtxOp.requestPaint] :=
  ⟨rfl, rfl, rfl, rfl, rfl, rfl, rfl, rfl, rfl, rfl, rfl⟩

/-- C7: a `SizedBox` holds at most one child: `children()` has length 1
exactly when a child is present and 0 otherwise; `new` and `new_with_id`
produce a widget with a child, `empty` one without; `set_child` yields a
state with exactly one child and `remove_child` one with none. -/
theorem sizedbox_single_child (s : SizedBox)
    (cw : BoxConstraints → Env → Size) (id : ℕ) :
    s.children.length ≤ 1 ∧
    (s.children.length = if s.child.isSome then 1 else 0) ∧
    (SizedBox.new cw).child.isSome = true ∧
    (SizedBox.new_with_id cw id).child.isSome = true ∧
    SizedBox.empty.child = none ∧
    (SizedBoxMut.set_child s cw).1.child.isSome = true ∧
    (SizedBoxMut.remove_child s).1.child = none := by
  refine ⟨?_, ?_, rfl, rfl, rfl, rfl, rfl⟩ <;>
    rcases s with ⟨child, w, h, bg, bd, cr⟩ <;>
    cases child <;> simp [SizedBox.children]

/-- C8: `Data::same` on `FontDescriptor` returns `true` iff the `family`,
`size`, `weight` and `style` fields are all equal, equivalently iff the
descriptors are equal, and coincides with the derived `PartialEq`
equality. -/
theorem fontdescriptor_same_iff (a b : FontDescriptor) :
    (a.same b = true ↔
      (a.family = b.family ∧ a.size = b.size ∧ a.weight = b.weight ∧
        a.style = b.style)) ∧
    (a.same b = true ↔ a = b) ∧
    a.same b = FontDescriptor.eqDerived a b := by
  rcases a with ⟨fa, sa, wa, ya⟩
  rcases b with ⟨fb, sb, wb, yb⟩
  refine ⟨?_, ?_, rfl⟩ <;>
    simp [FontDescriptor.same, FontDescriptor.mk.injEq, and_assoc]

/-- C9: each `SizedBox` builder method changes only its named field(s) and
leaves every other field, including the child, unchanged. -/
theorem sizedbox_builder_frame (s : SizedBox) (w h : F)
    (brush : BackgroundBrush) (color : KeyOrValue Color) (bw : KeyOrValue F)
    (radius : KeyOrValue RoundedRectRadii) :
    ((s.with_width w).width = some w ∧
      (s.with_width w).child = s.child ∧
      (s.with_width w).height = s.height ∧
      (s.with_width w).background = s.background ∧
      (s.with_width w).border = s.border ∧
      (s.with_width w).corner_radius = s.corner_radius) ∧
    ((s.with_height h).height = some h ∧
      (s.with_height h).child = s.child ∧
      (s.with_height h).width = s.width ∧
      (s.with_height h).background = s.background ∧
      (s.with_height h).border = s.border ∧
      (s.with_height h).corner_radius = s.corner_radius) ∧
    ((s.with_background brush).background = some brush ∧
      (s.with_background brush).child = s.child ∧
      (s.with_background brush).width = s.width ∧
      (s.with_background brush).height = s.height ∧
      (s.with_background brush).border = s.border ∧
      (s.with_background brush).corner_radius = s.corner_radius) ∧
    ((s.with_border color bw).border = some { color := color, width := bw } ∧
      (s.with_border color bw).child = s.child ∧
      (s.with_border color bw).width = s.width ∧
      (s.with_border color bw).height = s.height ∧
      (s.with_border color bw).background = s.background ∧
      (s.with_border color bw).corner_radius = s.corner_radius) ∧
    ((s.rounded radius).corner_radius = radius ∧
      (s.rounded radius).child = s.child ∧
      (s.rounded radius).width = s.width ∧
      (s.rounded radius).height = s.height ∧
      (s.rounded radius).background = s.background ∧
      (s.rounded radius).border = s.border) :=
  ⟨⟨rfl, rfl, rfl, rfl, rfl, rfl⟩, ⟨rfl, rfl, rfl, rfl, rfl, rfl⟩,
    ⟨rfl, rfl, rfl, rfl, rfl, rfl⟩, ⟨rfl, rfl, rfl, rfl, rfl, rfl⟩,
    ⟨rfl, rfl, rfl, rfl, rfl, rfl⟩⟩

/-- C10: `expand` produces the same widget state as `expand_width`
followed by `expand_height`: both set `width` and `height` to
`Some(INFINITY)` and change no other field. -/
theorem sizedbox_expand_split (s : SizedBox) :
    s.expand = s.expand_width.expand_height ∧
    s.expand.width = some F.INFINITY ∧
    s.expand.height = some F.INFINITY ∧
    s.expand.child = s.child ∧
    s.expand.background = s.background ∧
    s.expand.border = s.border ∧
    s.expand.corner_radius = s.corner_radius :=
  ⟨rfl, rfl, rfl, rfl, rfl, rfl, rfl⟩

end Masonry
